import Mathlib

/-!
Shallow embedding of `src/verifai/scenic_server.py` (VerifAI repository).

The file models the three classes of the source:

* `ScenicServer` — the serial server (`run_server`, `_simulate`);
* `SampleSimulator` — the per-slot trial worker (`__init__`, `simulate`);
* `ParallelScenicServer` — the coordinator (`_generate_next_sample`,
  `run_server` with its warmup fill and harvest/refill loop).

External collaborators (the Scenic sampler, the simulator backend, the
monitor, the bias updater) are modelled as deterministic oracles packed into
environment structures; Python exceptions are modelled with `Except` and a
small error inductive; a Python attribute that a class never assigns is
modelled as an `Option` field initialized to `none`, and reading it in that
state yields `PyError.attributeError`.
-/

namespace VerifAI

/-- Python exceptions that can escape a modelled call, as observed by the
caller.  `typeError` is raised by tuple-unpacking a `None` value,
`attributeError` by reading a never-assigned attribute, `updateError` stands
for an arbitrary exception escaping `externalSampler.update`,
`workerException` for an arbitrary exception re-raised by `ray.get`, and
`assertionError` for a failing `assert`.  `fuelExhausted` is the value of the
loop model's unreachable out-of-fuel branch. -/
inductive PyError
  | typeError
  | attributeError
  | updateError
  | workerException
  | assertionError
  | fuelExhausted
deriving DecidableEq

/-- Outcome of one materialization attempt
`ray.get(sim.get_sample.remote(sample))` in `_generate_next_sample`
(scenic_server.py lines 161-173): it returns normally, raises
`SimulationCreationError`, or raises `RejectionException`. -/
inductive MatOutcome
  | ok
  | creationError
  | rejection
deriving DecidableEq

/-- Oracle environment for `ParallelScenicServer._generate_next_sample`
(scenic_server.py lines 145-174).  `getSample` embeds
`ext.cachedSample = ext.getSample()` — one sampler draw that advances the
sampler state `σ` (the mutation of `cachedSample` is part of the new state);
`currentBuckets` embeds the guarded read of
`ext.sampler.domainSampler.current_sample` after the draw (the `except`
branch that sets `buckets = None` is the `none` value); `materialize`
classifies `ray.get(sim.get_sample.remote(sample))`; `rejectionFeedback`
embeds `ext.rejectionFeedback` (assigned to the dead local `feedback` on a
rejection). -/
structure GenEnv (σ Sample Bucket : Type) where
  getSample : σ → Sample × σ
  currentBuckets : σ → Option Bucket
  materialize : Sample → MatOutcome
  rejectionFeedback : Option Int

/-- Result of one `_generate_next_sample` call.  `sample` and `buckets` are
the Python return value (a pair, `(None, None)` on failure); `state` is the
sampler state after the call; `draws` counts the `ext.getSample()` calls the
call consumed. -/
structure GenResult (σ Sample Bucket : Type) where
  sample : Option Sample
  buckets : Option Bucket
  state : σ
  draws : Nat
deriving DecidableEq

/-- The `while i < 2000` loop of `_generate_next_sample`
(scenic_server.py lines 149-174), with the remaining budget as fuel.  The
`fb` argument mirrors the local variable `feedback`: it is initialized from
`self.lastValue` (line 147), reassigned to `ext.rejectionFeedback` on a
rejection (line 172), and never otherwise used — the source reads it into
the local and drops it. -/
def genAux (env : GenEnv σ Sample Bucket) :
    Nat → Option Int → σ → GenResult σ Sample Bucket
  | 0, _, s => ⟨none, none, s, 0⟩
  | b + 1, _, s =>
    let smp := (env.getSample s).1
    let s' := (env.getSample s).2
    match env.materialize smp with
    | .ok => ⟨some smp, env.currentBuckets s', s', 1⟩
    | .creationError => ⟨none, none, s', 1⟩
    | .rejection =>
      let r := genAux env b env.rejectionFeedback s'
      ⟨r.sample, r.buckets, r.state, r.draws + 1⟩

/-- `ParallelScenicServer._generate_next_sample` (scenic_server.py
lines 145-174): the retry loop with its literal ceiling of 2000 attempts,
started from `feedback = self.lastValue`. -/
def generateNextSample (env : GenEnv σ Sample Bucket) (lastValue : Option Int)
    (s : σ) : GenResult σ Sample Bucket :=
  genAux env 2000 lastValue s

/-- The Python return value of `_generate_next_sample`: the
`(sample, buckets)` pair (both `None` on creation failure and on retry-ceiling
exhaustion); `state` and `draws` are model instrumentation, not returned. -/
def GenResult.retPair (r : GenResult σ Sample Bucket) :
    Option Sample × Option Bucket :=
  (r.sample, r.buckets)

/-- The sampler state after `n` consecutive `ext.getSample()` draws. -/
def iterDraw (env : GenEnv σ Sample Bucket) : Nat → σ → σ
  | 0, s => s
  | b + 1, s => iterDraw env b (env.getSample s).2

/-- Reply of a `simulator.simulate(scene, ...)` call: it raises
`SimulationCreationError`, or returns `None`, or returns a `SimResult`.  The
only field of a `SimResult` the source reads is `.trajectory`, so a result is
modelled by its trajectory. -/
inductive SimReply (Traj : Type)
  | creationError
  | ret (result : Option Traj)

/-- Oracle environment for one `SampleSimulator` worker.  `resolve` embeds
the sequence `self.sampler.scenario.externalSampler.last_sample = sample;
full_sample = self.sampler.nextSample(sample); scene = self.sampler.lastScene`
(scenic_server.py lines 108-110): from the dispatched sample (possibly
`None`) it produces the materialized `full_sample` and the scene.
`simulate` embeds the worker's own `self.simulator.simulate(...)` call. -/
structure WorkerEnv (Sample Scene Traj : Type) where
  resolve : Option Sample → Sample × Scene
  simulate : Scene → SimReply Traj

/-- Attribute state of a `SampleSimulator` actor.  `rejectionFeedback` is an
attribute that `__init__` (scenic_server.py lines 81-97) never assigns and no
other method assigns either, so it is modelled as an `Option` that `init`
sets to `none` (= attribute absent; reading it raises `AttributeError`).
`lastValue` is likewise unassigned until `simulate` writes it. -/
structure SampleSimState (Traj : Type) where
  worker_num : Nat
  monitor : Option (Traj → Int)
  maxSteps : Option Nat
  verbosity : Nat
  maxIterations : Nat
  rejectionFeedback : Option Int
  lastValue : Option Int

/-- `SampleSimulator.__init__` (scenic_server.py lines 81-97): records the
worker number, monitor and options; the sampler, dummy external sampler and
simulator it builds are the oracles of `WorkerEnv`.  It assigns neither
`self.rejectionFeedback` nor `self.lastValue`. -/
def SampleSimulator.init (worker_num : Nat) (monitor : Option (Traj → Int))
    (maxSteps : Option Nat) (verbosity : Nat) (maxIterations : Nat) :
    SampleSimState Traj :=
  { worker_num := worker_num
    monitor := monitor
    maxSteps := maxSteps
    verbosity := verbosity
    maxIterations := maxIterations
    rejectionFeedback := none
    lastValue := none }

/-- `SampleSimulator.simulate` (scenic_server.py lines 103-130).  On
`SimulationCreationError` it returns `None` (modelled `.ok (st, none)`);
when the simulator returns `None` it executes
`self.lastValue = self.rejectionFeedback`, which raises `AttributeError`
whenever that attribute was never assigned; otherwise it scores the
trajectory with the monitor (default 0) and returns the
`(worker_num, full_sample, lastValue)` tuple. -/
def SampleSimulator.simulate (st : SampleSimState Traj)
    (env : WorkerEnv Sample Scene Traj) (sample : Option Sample) :
    Except PyError (SampleSimState Traj × Option (Nat × Sample × Int)) :=
  let fullSample := (env.resolve sample).1
  let scene := (env.resolve sample).2
  match env.simulate scene with
  | .creationError => .ok (st, none)
  | .ret none =>
    match st.rejectionFeedback with
    | none => .error .attributeError
    | some v =>
      .ok ({ st with lastValue := some v }, some (st.worker_num, fullSample, v))
  | .ret (some traj) =>
    let rho := match st.monitor with
      | none => 0
      | some m => m traj
    .ok ({ st with lastValue := some rho }, some (st.worker_num, fullSample, rho))

/-- Oracle environment for the serial `ScenicServer`.  `nextSample` embeds
`self.sampler.nextSample(self.lastValue)` and `lastScene` the subsequent read
of `self.sampler.lastScene` (both keyed on the feedback passed in, the only
input of that call); `simulate` embeds `self.simulator.simulate(...)`. -/
structure SerialEnv (Sample Scene Traj : Type) where
  nextSample : Option Int → Sample
  lastScene : Option Int → Option Scene
  simulate : Scene → SimReply Traj
  monitor : Option (Traj → Int)
  rejectionFeedback : Option Int

/-- `ScenicServer._simulate` (scenic_server.py lines 53-68): returns the
simulator's result, or `None` when the simulator raises
`SimulationCreationError`. -/
def ScenicServer.runSimulate (env : SerialEnv Sample Scene Traj)
    (scene : Scene) : Option Traj :=
  match env.simulate scene with
  | .creationError => none
  | .ret r => r

/-- `ScenicServer.run_server` (scenic_server.py lines 41-51): draw a sample,
assert the scene exists, simulate, then set `lastValue` to
`rejectionFeedback` on a null result or to the monitor score (default 0) on
success, and return `(sample, lastValue)`.  The second component of the
`.ok` value is the new `self.lastValue`. -/
def ScenicServer.run_server (env : SerialEnv Sample Scene Traj)
    (lastValue : Option Int) :
    Except PyError ((Sample × Option Int) × Option Int) :=
  let sample := env.nextSample lastValue
  match env.lastScene lastValue with
  | none => .error .assertionError
  | some scene =>
    let result := ScenicServer.runSimulate env scene
    let newLast : Option Int :=
      match result with
      | none => env.rejectionFeedback
      | some traj =>
        some (match env.monitor with
          | none => 0
          | some m => m traj)
    .ok ((sample, newLast), newLast)

/-- Reply of a completed worker future as observed through `ray.get` in the
coordinator (scenic_server.py line 190): the worker's exception re-raised
(`raised`), the worker's `return None` taken on `SimulationCreationError`
(`retNone`), or the normal `(worker_num, full_sample, rho)` tuple.  Worker
`i`'s tuple always carries `worker_num = i` (line 130), and worker `i`'s
future always sits at `futures[i]` (warmup appends in slot order, the refill
writes `futures[index]`), so the slot being harvested already determines the
tuple's index component and `retVal` carries only the sample and score. -/
inductive WorkerReply (Sample : Type)
  | raised
  | retNone
  | retVal (sample : Sample) (rho : Int)

/-- Oracle environment for `ParallelScenicServer.run_server`.  `N` is
`total_workers`, `n_iters` the target count, `gen` the generator environment
with `initSampler` the coordinator sampler's initial state, `workerSim i s`
the (deterministic) reply of worker `i`'s `simulate` future on dispatched
sample `s`, and `update b rho s` the effect of
`self.sampler.scenario.externalSampler.update(buckets, rho)` on the sampler
state — `none` meaning the call raised. -/
structure ServerEnv (σ Sample Bucket : Type) where
  N : Nat
  n_iters : Nat
  gen : GenEnv σ Sample Bucket
  initSampler : σ
  workerSim : Nat → Option Sample → WorkerReply Sample
  update : Bucket → Int → σ → Option σ

/-- Coordinator state of `ParallelScenicServer.run_server`: the sampler
state, `self.lastValue`, the `samples`, `bucket_values` and `futures` lists
(a slot's `pending` entry is the sample argument of its in-flight `simulate`
future), the `results` log, plus instrumentation: the log of
`externalSampler.update` calls, the number of harvested futures, and the
number of `_generate_next_sample` calls. -/
structure RunState (σ Sample Bucket : Type) where
  samplerState : σ
  lastValue : Option Int
  samples : List (Option Sample)
  bucketValues : List (Option Bucket)
  pending : List (Option Sample)
  results : List (Sample × Int)
  updateLog : List (Bucket × Int)
  harvests : Nat
  genCalls : Nat

/-- Coordinator state at the top of `run_server` (scenic_server.py
lines 176-181): empty lists, `self.lastValue` still `None` from
`ScenicServer.__init__`. -/
def initState (env : ServerEnv σ Sample Bucket) : RunState σ Sample Bucket :=
  ⟨env.initSampler, none, [], [], [], [], [], 0, 0⟩

/-- The warmup fill `for i in range(self.total_workers)` (scenic_server.py
lines 182-187): each iteration calls `_generate_next_sample` once and
appends the generated sample to `samples`, its buckets to `bucket_values`
and the dispatched future's argument to `futures` — unconditionally, with no
test on the generated value. -/
def warmup (env : ServerEnv σ Sample Bucket) :
    Nat → RunState σ Sample Bucket → RunState σ Sample Bucket
  | 0, st => st
  | k + 1, st =>
    let g := generateNextSample env.gen st.lastValue st.samplerState
    warmup env k
      { st with
        samplerState := g.state
        samples := st.samples ++ [g.sample]
        bucketValues := st.bucketValues ++ [g.buckets]
        pending := st.pending ++ [g.sample]
        genCalls := st.genCalls + 1 }

/-- The coordinator state once all `N` warmup slots have been filled. -/
def warmupState (env : ServerEnv σ Sample Bucket) : RunState σ Sample Bucket :=
  warmup env env.N (initState env)

/-- Harvest bookkeeping of one loop iteration (scenic_server.py
lines 193-195): `index, sample, rho = result`, `self.lastValue = rho`,
`results.append((sample, rho))`. -/
def harvestStep (sample : Sample) (rho : Int) (st : RunState σ Sample Bucket) :
    RunState σ Sample Bucket :=
  { st with
    lastValue := some rho
    results := st.results ++ [(sample, rho)]
    harvests := st.harvests + 1 }

/-- The feedback update of one loop iteration (scenic_server.py
lines 196-199): read `bucket_values[index]`; when it is non-null, call
`externalSampler.update(buckets, rho)` with no exception handler — a raising
update (oracle value `none`) aborts the iteration with the exception. -/
def applyUpdate (env : ServerEnv σ Sample Bucket) (j : Nat) (rho : Int)
    (st : RunState σ Sample Bucket) : Option (RunState σ Sample Bucket) :=
  match st.bucketValues.getD j none with
  | none => some st
  | some b =>
    match env.update b rho st.samplerState with
    | none => none
    | some s' =>
      some { st with samplerState := s', updateLog := st.updateLog ++ [(b, rho)] }

/-- The refill of one loop iteration (scenic_server.py lines 203-210):
generate a fresh candidate from the current `self.lastValue` and write it —
again unconditionally — into `samples[index]`, `bucket_values[index]` and
`futures[index]`. -/
def refill (env : ServerEnv σ Sample Bucket) (j : Nat)
    (st : RunState σ Sample Bucket) : RunState σ Sample Bucket :=
  let g := generateNextSample env.gen st.lastValue st.samplerState
  { st with
    samplerState := g.state
    samples := st.samples.set j g.sample
    bucketValues := st.bucketValues.set j g.buckets
    pending := st.pending.set j g.sample
    genCalls := st.genCalls + 1 }

/-- The `while True` harvest/refill loop of `ParallelScenicServer.run_server`
(scenic_server.py lines 188-210).  `sched` resolves the nondeterminism of
`ray.wait`: at harvest number `t` it completes slot `sched t % N` (after
warmup every slot always has exactly one outstanding future, so any slot may
complete).  Unpacking a worker's `None` return raises `TypeError`; a worker
exception is re-raised by `ray.get`; an update exception propagates
unhandled.  The loop `break`s as soon as `len(results) >= n_iters`, checked
after the append and the update and before any refill.  Each iteration
appends exactly one result, so fuel `n_iters + 1` never runs out;
the fuel-exhausted branch is unreachable. -/
def runLoop (env : ServerEnv σ Sample Bucket) (sched : Nat → Nat) :
    Nat → RunState σ Sample Bucket → Except PyError (RunState σ Sample Bucket)
  | 0, _ => .error .fuelExhausted
  | f + 1, st =>
    let j := sched st.harvests % env.N
    match env.workerSim j (st.pending.getD j none) with
    | .raised => .error .workerException
    | .retNone => .error .typeError
    | .retVal sample rho =>
      match applyUpdate env j rho (harvestStep sample rho st) with
      | none => .error .updateError
      | some st1 =>
        if env.n_iters ≤ st1.results.length then .ok st1
        else runLoop env sched f (refill env j st1)

/-- `ParallelScenicServer.run_server` (scenic_server.py lines 176-212) with
the full final coordinator state exposed. -/
def runServerState (env : ServerEnv σ Sample Bucket) (sched : Nat → Nat) :
    Except PyError (RunState σ Sample Bucket) :=
  runLoop env sched (env.n_iters + 1) (warmupState env)

/-- `ParallelScenicServer.run_server`: the Python return value is the
`results` list. -/
def ParallelScenicServer.run_server (env : ServerEnv σ Sample Bucket)
    (sched : Nat → Nat) : Except PyError (List (Sample × Int)) :=
  (runServerState env sched).map RunState.results

/-! ### Concrete instances used by witnesses and counterexamples -/

/-- A generator environment whose every materialization attempt is
rejected. -/
def genEnvRej3 : GenEnv Nat Nat Nat :=
  { getSample := fun s => (s, s + 1)
    currentBuckets := fun s => some s
    materialize := fun _ => .rejection
    rejectionFeedback := some (-1) }

/-- A generator environment whose every materialization attempt raises a
creation failure. -/
def genEnvCre5 : GenEnv Nat Nat Nat :=
  { getSample := fun s => (s, s + 1)
    currentBuckets := fun s => some s
    materialize := fun _ => .creationError
    rejectionFeedback := some (-1) }

/-- A generator environment whose every materialization attempt is rejected
(companion to `genEnvCre5` for comparing the two failure returns). -/
def genEnvRej5 : GenEnv Nat Nat Nat :=
  { getSample := fun s => (s, s + 1)
    currentBuckets := fun s => some s
    materialize := fun _ => .rejection
    rejectionFeedback := some (-1) }

/-- A generator environment that rejects the first two raw samples and then
accepts, so the dead `feedback` local is reassigned twice before success. -/
def genEnvMix7 : GenEnv Nat Nat Nat :=
  { getSample := fun s => (s, s + 1)
    currentBuckets := fun s => some s
    materialize := fun smp => if smp < 2 then .rejection else .ok
    rejectionFeedback := some 0 }

/-- A worker environment whose simulator always raises
`SimulationCreationError`. -/
def wEnvCre1 : WorkerEnv Nat Nat Nat :=
  { resolve := fun _ => (0, 0)
    simulate := fun _ => .creationError }

/-- A freshly initialized worker actor. -/
def stSim1 : SampleSimState Nat :=
  SampleSimulator.init 0 none none 0 1

/-- A generator environment with no rejections and no bucket structure. -/
def genEnvOk1 : GenEnv Nat Nat Nat :=
  { getSample := fun s => (s, s + 1)
    currentBuckets := fun _ => none
    materialize := fun _ => .ok
    rejectionFeedback := none }

/-- A coordinator environment all of whose workers return the `None`
creation-failure sentinel. -/
def envSrv1 : ServerEnv Nat Nat Nat :=
  { N := 2
    n_iters := 3
    gen := genEnvOk1
    initSampler := 0
    workerSim := fun _ _ => .retNone
    update := fun _ _ s => some s }

/-- A benign coordinator environment with five workers and a target of
three results. -/
def envSrv2 : ServerEnv Nat Nat Nat :=
  { N := 5
    n_iters := 3
    gen := genEnvOk1
    initSampler := 0
    workerSim := fun i _ => .retVal (10 + i) (Int.ofNat i)
    update := fun _ _ s => some s }

/-- A generator environment that always reports bucket 9. -/
def genEnvBk4 : GenEnv Nat Nat Nat :=
  { getSample := fun s => (s, s + 1)
    currentBuckets := fun _ => some 9
    materialize := fun _ => .ok
    rejectionFeedback := none }

/-- A coordinator environment whose feedback updater always raises. -/
def envSrv4 : ServerEnv Nat Nat Nat :=
  { N := 1
    n_iters := 1
    gen := genEnvBk4
    initSampler := 0
    workerSim := fun _ _ => .retVal 7 3
    update := fun _ _ _ => none }

/-- A generator environment that always hits a creation failure, so every
generated candidate is null. -/
def genEnvCre6 : GenEnv Nat Nat Nat :=
  { getSample := fun s => (s, s + 1)
    currentBuckets := fun _ => none
    materialize := fun _ => .creationError
    rejectionFeedback := none }

/-- A coordinator environment whose generator only yields null candidates. -/
def envSrv6 : ServerEnv Nat Nat Nat :=
  { N := 2
    n_iters := 4
    gen := genEnvCre6
    initSampler := 0
    workerSim := fun _ _ => .retNone
    update := fun _ _ s => some s }

/-- A benign single-worker coordinator environment whose sampler exposes no
bucket structure. -/
def envSrv8 : ServerEnv Nat Nat Nat :=
  { N := 1
    n_iters := 1
    gen := genEnvOk1
    initSampler := 0
    workerSim := fun _ _ => .retVal 7 3
    update := fun _ _ s => some s }

/-- The final coordinator state of the `envSrv8` run. -/
def stW8 : RunState Nat Nat Nat :=
  ⟨1, some 3, [some 0], [none], [some 0], [(7, 3)], [], 1, 1⟩

/-- A serial-server environment with a monitor and a successful simulation. -/
def envSer9a : SerialEnv Nat Nat Nat :=
  { nextSample := fun _ => 42
    lastScene := fun _ => some 1
    simulate := fun _ => .ret (some 10)
    monitor := some (fun t => 2 * t)
    rejectionFeedback := some (-5) }

/-- A serial-server environment with no monitor and a successful
simulation. -/
def envSer9b : SerialEnv Nat Nat Nat :=
  { nextSample := fun _ => 42
    lastScene := fun _ => some 1
    simulate := fun _ => .ret (some 10)
    monitor := none
    rejectionFeedback := some (-5) }

/-- A serial-server environment whose simulator raises a creation failure. -/
def envSer9c : SerialEnv Nat Nat Nat :=
  { nextSample := fun _ => 42
    lastScene := fun _ => some 1
    simulate := fun _ => .creationError
    monitor := some (fun t => 2 * t)
    rejectionFeedback := some (-5) }

/-- A freshly initialized worker actor (worker number 3). -/
def stSim10 : SampleSimState Nat :=
  SampleSimulator.init 3 none none 0 1

/-- A worker environment whose simulator returns `None` without raising. -/
def wEnv10 : WorkerEnv Nat Nat Nat :=
  { resolve := fun _ => (0, 0)
    simulate := fun _ => .ret none }

/-! ### Helper lemmas -/

/-- When every materialization attempt raises `RejectionException`, the loop
runs its whole budget: one draw per attempt, and the `(None, None)`
fall-through return of line 174. -/
theorem genAux_rejectAll (env : GenEnv σ Sample Bucket)
    (h : ∀ smp, env.materialize smp = .rejection) :
    ∀ (b : Nat) (fb : Option Int) (s : σ),
      genAux env b fb s = ⟨none, none, iterDraw env b s, b⟩ := by
  intro b
  induction b with
  | zero => intro fb s; rfl
  | succ b ih =>
    intro fb s
    simp only [genAux, h, iterDraw, ih]

/-- One-step unfolding of `genAux` when the first materialization attempt
raises `SimulationCreationError`: the `return None, None` of line 169, after
a single draw. -/
theorem genAux_creationFirst (env : GenEnv σ Sample Bucket)
    (h : env.materialize (env.getSample s).1 = .creationError)
    (b : Nat) (fb : Option Int) :
    genAux env (b + 1) fb s = ⟨none, none, (env.getSample s).2, 1⟩ := by
  simp only [genAux, h]

/-- The `feedback` local never influences the loop: `genAux` ignores its
feedback argument except to overwrite it. -/
theorem genAux_feedback_irrelevant (env : GenEnv σ Sample Bucket) :
    ∀ (b : Nat) (fb₁ fb₂ : Option Int) (s : σ),
      genAux env b fb₁ s = genAux env b fb₂ s := by
  intro b
  induction b with
  | zero => intro fb₁ fb₂ s; rfl
  | succ b ih =>
    intro fb₁ fb₂ s
    simp only [genAux]

/-- `_generate_next_sample` under an always-rejecting materializer. -/
theorem generateNextSample_rejectAll (env : GenEnv σ Sample Bucket)
    (h : ∀ smp, env.materialize smp = .rejection) (fb : Option Int) (s : σ) :
    generateNextSample env fb s = ⟨none, none, iterDraw env 2000 s, 2000⟩ :=
  genAux_rejectAll env h 2000 fb s

/-- `_generate_next_sample` when the first materialization attempt raises a
creation failure. -/
theorem generateNextSample_creationFirst (env : GenEnv σ Sample Bucket)
    (fb : Option Int) (s : σ)
    (h : env.materialize (env.getSample s).1 = .creationError) :
    generateNextSample env fb s = ⟨none, none, (env.getSample s).2, 1⟩ :=
  genAux_creationFirst env h 1999 fb

/-- Warmup never touches the results log. -/
theorem warmup_results (env : ServerEnv σ Sample Bucket) :
    ∀ (k : Nat) (st : RunState σ Sample Bucket),
      (warmup env k st).results = st.results := by
  intro k
  induction k with
  | zero => intro st; rfl
  | succ k ih => intro st; simp only [warmup, ih]

/-- Warmup harvests nothing. -/
theorem warmup_harvests (env : ServerEnv σ Sample Bucket) :
    ∀ (k : Nat) (st : RunState σ Sample Bucket),
      (warmup env k st).harvests = st.harvests := by
  intro k
  induction k with
  | zero => intro st; rfl
  | succ k ih => intro st; simp only [warmup, ih]

/-- Warmup performs no feedback update. -/
theorem warmup_updateLog (env : ServerEnv σ Sample Bucket) :
    ∀ (k : Nat) (st : RunState σ Sample Bucket),
      (warmup env k st).updateLog = st.updateLog := by
  intro k
  induction k with
  | zero => intro st; rfl
  | succ k ih => intro st; simp only [warmup, ih]

/-- Warmup leaves `self.lastValue` untouched. -/
theorem warmup_lastValue (env : ServerEnv σ Sample Bucket) :
    ∀ (k : Nat) (st : RunState σ Sample Bucket),
      (warmup env k st).lastValue = st.lastValue := by
  intro k
  induction k with
  | zero => intro st; rfl
  | succ k ih => intro st; simp only [warmup, ih]

/-- Warmup calls the generator once per slot. -/
theorem warmup_genCalls (env : ServerEnv σ Sample Bucket) :
    ∀ (k : Nat) (st : RunState σ Sample Bucket),
      (warmup env k st).genCalls = st.genCalls + k := by
  intro k
  induction k with
  | zero => intro st; rfl
  | succ k ih => intro st; simp only [warmup, ih]; omega

/-- Warmup dispatches one future per slot. -/
theorem warmup_pending_length (env : ServerEnv σ Sample Bucket) :
    ∀ (k : Nat) (st : RunState σ Sample Bucket),
      (warmup env k st).pending.length = st.pending.length + k := by
  intro k
  induction k with
  | zero => intro st; rfl
  | succ k ih => intro st; simp only [warmup, ih]; simp; omega

/-- During warmup every dispatched future receives exactly the sample the
generator just produced for that slot. -/
theorem warmup_pending_eq_samples (env : ServerEnv σ Sample Bucket) :
    ∀ (k : Nat) (st : RunState σ Sample Bucket),
      st.pending = st.samples →
      (warmup env k st).pending = (warmup env k st).samples := by
  intro k
  induction k with
  | zero => intro st h; exact h
  | succ k ih =>
    intro st h
    simp only [warmup]
    exact ih _ (by simp [h])

/-- A generator whose `current_sample` read always fails (or yields nothing)
never returns buckets. -/
theorem genAux_buckets_none (env : GenEnv σ Sample Bucket)
    (hb : ∀ s, env.currentBuckets s = none) :
    ∀ (b : Nat) (fb : Option Int) (s : σ), (genAux env b fb s).buckets = none := by
  intro b
  induction b with
  | zero => intro fb s; rfl
  | succ b ih =>
    intro fb s
    simp only [genAux]
    cases env.materialize (env.getSample s).1 <;> simp [hb, ih]

/-- Reading any position of an all-`none` list with default `none` gives
`none`. -/
theorem getD_none_of_all_none :
    ∀ (l : List (Option α)) (i : Nat), (∀ x ∈ l, x = none) →
      l.getD i none = none
  | [], i, _ => by cases i <;> rfl
  | a :: l, 0, h => h a (by simp)
  | a :: l, i + 1, h =>
    getD_none_of_all_none l i (fun x hx => h x (by simp [hx]))

/-- Writing `none` into an all-`none` list keeps it all-`none`. -/
theorem all_none_set (l : List (Option α)) (j : Nat)
    (h : ∀ x ∈ l, x = none) : ∀ x ∈ l.set j none, x = none := by
  intro x hx
  rcases List.mem_or_eq_of_mem_set hx with h' | h'
  · exact h x h'
  · exact h'

/-- Warmup propagates an all-`none` `bucket_values` list when the generator
never yields buckets. -/
theorem warmup_bucketValues_none (env : ServerEnv σ Sample Bucket)
    (hb : ∀ s, env.gen.currentBuckets s = none) :
    ∀ (k : Nat) (st : RunState σ Sample Bucket),
      (∀ x ∈ st.bucketValues, x = none) →
      ∀ x ∈ (warmup env k st).bucketValues, x = none := by
  intro k
  induction k with
  | zero => intro st h; exact h
  | succ k ih =>
    intro st h
    simp only [warmup]
    apply ih
    intro x hx
    rcases List.mem_append.mp hx with h' | h'
    · exact h x h'
    · simp only [List.mem_singleton] at h'
      subst h'
      exact genAux_buckets_none env.gen hb 2000 st.lastValue st.samplerState

/-- `applyUpdate` only touches the sampler state and the update log; when
the updater never raises, it always returns a state. -/
theorem applyUpdate_exists (env : ServerEnv σ Sample Bucket) (j : Nat)
    (rho : Int) (st : RunState σ Sample Bucket)
    (hu : ∀ b r s0, ∃ s1, env.update b r s0 = some s1) :
    ∃ st1, applyUpdate env j rho st = some st1 ∧
      st1.results = st.results ∧ st1.harvests = st.harvests ∧
      st1.genCalls = st.genCalls ∧ st1.lastValue = st.lastValue ∧
      st1.pending = st.pending ∧ st1.bucketValues = st.bucketValues := by
  unfold applyUpdate
  cases hg : st.bucketValues.getD j none with
  | none => exact ⟨st, rfl, rfl, rfl, rfl, rfl, rfl, rfl⟩
  | some b =>
    obtain ⟨s1, hs1⟩ := hu b rho st.samplerState
    simp only [hs1]
    exact ⟨_, rfl, rfl, rfl, rfl, rfl, rfl, rfl⟩

/-- A null `bucket_values[index]` entry skips the update call entirely. -/
theorem applyUpdate_of_getD_none (env : ServerEnv σ Sample Bucket) (j : Nat)
    (rho : Int) (st : RunState σ Sample Bucket)
    (h : st.bucketValues.getD j none = none) :
    applyUpdate env j rho st = some st := by
  unfold applyUpdate
  rw [h]

/-- A non-null `bucket_values[index]` entry reaches the update call, and a
raising update aborts `applyUpdate`. -/
theorem applyUpdate_of_raise (env : ServerEnv σ Sample Bucket) (j : Nat)
    (rho : Int) (st : RunState σ Sample Bucket) (b : Bucket)
    (hb : st.bucketValues.getD j none = some b)
    (hu : env.update b rho st.samplerState = none) :
    applyUpdate env j rho st = none := by
  unfold applyUpdate
  rw [hb]
  simp only [hu]

/-- Refill bookkeeping facts. -/
theorem refill_fields (env : ServerEnv σ Sample Bucket) (j : Nat)
    (st : RunState σ Sample Bucket) :
    (refill env j st).results = st.results ∧
    (refill env j st).harvests = st.harvests ∧
    (refill env j st).genCalls = st.genCalls + 1 ∧
    (refill env j st).updateLog = st.updateLog := by
  exact ⟨rfl, rfl, rfl, rfl⟩

/-- Completion of the harvest/refill loop under a benign environment (every
future completes with a tuple and the updater never raises): with enough
fuel the loop returns normally with exactly `n_iters` logged results, having
harvested once per missing result and generated one replacement candidate
for every harvest except the final one. -/
theorem runLoop_complete (env : ServerEnv σ Sample Bucket) (sched : Nat → Nat)
    (hw : ∀ i s, ∃ smp rho, env.workerSim i s = .retVal smp rho)
    (hu : ∀ b r s0, ∃ s1, env.update b r s0 = some s1) :
    ∀ (f : Nat) (st : RunState σ Sample Bucket),
      st.results.length < env.n_iters →
      env.n_iters ≤ st.results.length + f →
      ∃ st', runLoop env sched f st = .ok st' ∧
        st'.results.length = env.n_iters ∧
        st'.harvests = st.harvests + (env.n_iters - st.results.length) ∧
        st'.genCalls = st.genCalls + (env.n_iters - st.results.length - 1) := by
  intro f
  induction f with
  | zero => intro st h1 h2; omega
  | succ f ih =>
    intro st h1 h2
    obtain ⟨smp, rho, hws⟩ :=
      hw (sched st.harvests % env.N)
        (st.pending.getD (sched st.harvests % env.N) none)
    obtain ⟨st1, hst1, hres, hharv, hgen, _, _, _⟩ :=
      applyUpdate_exists env (sched st.harvests % env.N) rho
        (harvestStep smp rho st) hu
    have hres1 : st1.results.length = st.results.length + 1 := by
      rw [hres]; simp [harvestStep]
    have hharv1 : st1.harvests = st.harvests + 1 := by
      rw [hharv]; rfl
    have hgen1 : st1.genCalls = st.genCalls := by
      rw [hgen]; rfl
    simp only [runLoop, hws, hst1]
    by_cases hc : env.n_iters ≤ st1.results.length
    · refine ⟨st1, by simp [hc], by omega, by omega, by omega⟩
    · simp only [hc, if_false]
      have hlt : st1.results.length < env.n_iters := by omega
      obtain ⟨st', hrun, hlen', hharv', hgen'⟩ :=
        ih (refill env (sched st.harvests % env.N) st1)
          (by rw [(refill_fields _ _ _).1]; omega)
          (by rw [(refill_fields _ _ _).1]; omega)
      refine ⟨st', hrun, hlen', ?_, ?_⟩
      · rw [hharv', (refill_fields _ _ _).2.1, (refill_fields _ _ _).1]
        omega
      · rw [hgen', (refill_fields _ _ _).2.2.1, (refill_fields _ _ _).1]
        omega

/-- When the generator environment never yields buckets, every completed run
of the loop leaves the update log empty. -/
theorem runLoop_no_update (env : ServerEnv σ Sample Bucket) (sched : Nat → Nat)
    (hb : ∀ s, env.gen.currentBuckets s = none) :
    ∀ (f : Nat) (st : RunState σ Sample Bucket),
      (∀ x ∈ st.bucketValues, x = none) → st.updateLog = [] →
      ∀ st', runLoop env sched f st = .ok st' → st'.updateLog = [] := by
  intro f
  induction f with
  | zero => intro st _ _ st' h; exact absurd h (by simp [runLoop])
  | succ f ih =>
    intro st hbv hlog st' hrun
    simp only [runLoop] at hrun
    cases hws : env.workerSim (sched st.harvests % env.N)
        (st.pending.getD (sched st.harvests % env.N) none) with
    | raised => rw [hws] at hrun; exact absurd hrun (by simp)
    | retNone => rw [hws] at hrun; exact absurd hrun (by simp)
    | retVal smp rho =>
      rw [hws] at hrun
      simp only [] at hrun
      have hbv1 : (harvestStep smp rho st).bucketValues.getD
          (sched st.harvests % env.N) none = none :=
        getD_none_of_all_none _ _ hbv
      rw [applyUpdate_of_getD_none env _ rho _ hbv1] at hrun
      simp only [] at hrun
      by_cases hc : env.n_iters ≤ (harvestStep smp rho st).results.length
      · rw [if_pos hc] at hrun
        cases hrun
        exact hlog
      · rw [if_neg hc] at hrun
        refine ih _ ?_ ?_ st' hrun
        · intro x hx
          simp only [refill, harvestStep] at hx
          have hg : (generateNextSample env.gen (some rho)
              st.samplerState).buckets = none :=
            genAux_buckets_none env.gen hb 2000 _ _
          rw [generateNextSample] at hg
          rw [generateNextSample] at hx
          rw [hg] at hx
          exact all_none_set _ _ hbv x hx
        · exact hlog

/-! ### Claim theorems -/

/-- Claim C1, corrected.  What holds: (a) when the worker's simulator raises
`SimulationCreationError` during execution, `SampleSimulator.simulate`
returns the `None` sentinel as a first-class result — the exception itself
does not escape the worker; (b) what the claim additionally asserted is
false: the Scheduling Loop does NOT continue harvesting and refilling
normally, because `run_server` unpacks the harvested result with
`index, sample, rho = result`, which raises `TypeError` on `None` and aborts
the loop. -/
theorem claim_C1 :
    (∀ (Sample Scene Traj : Type) (st : SampleSimState Traj)
        (env : WorkerEnv Sample Scene Traj) (sample : Option Sample),
      env.simulate (env.resolve sample).2 = .creationError →
      SampleSimulator.simulate st env sample = .ok (st, none)) ∧
    (∀ (σ Sample Bucket : Type) (env : ServerEnv σ Sample Bucket)
        (sched : Nat → Nat),
      (∀ i s, env.workerSim i s = .retNone) →
      runServerState env sched = .error .typeError) := by
  constructor
  · intro Sample Scene Traj st env sample h
    simp only [SampleSimulator.simulate, h]
  · intro σ Sample Bucket env sched hw
    rw [runServerState]
    simp only [runLoop, hw]

/-- Claim C1 witness: a concrete worker whose simulator always raises a
creation failure returns the sentinel, and a concrete coordinator harvesting
such sentinels raises `TypeError`. -/
theorem claim_C1_witness :
    SampleSimulator.simulate stSim1 wEnvCre1 (some 5) = .ok (stSim1, none) ∧
    runServerState envSrv1 (fun _ => 0) = .error .typeError :=
  ⟨claim_C1.1 Nat Nat Nat stSim1 wEnvCre1 (some 5) rfl,
   claim_C1.2 Nat Nat Nat envSrv1 (fun _ => 0) (fun _ _ => rfl)⟩

/-- Claim C1 counterexample: with every worker hitting a creation failure
(the worker's `simulate` returns the `None` sentinel without raising, first
conjunct), `ParallelScenicServer.run_server` raises `TypeError` instead of
continuing to harvest and refill. -/
theorem claim_C1_counterexample :
    SampleSimulator.simulate stSim1 wEnvCre1 (some 5) = .ok (stSim1, none) ∧
    ParallelScenicServer.run_server envSrv1 (fun _ => 0) =
      .error .typeError :=
  ⟨rfl, rfl⟩

/-- Claim C2: for every worker count `N ≥ 1` and target `n_iters ≥ 1`, under
a benign environment (every harvested future yields a tuple and the updater
never raises) the Scheduling Loop exits the instant the result log reaches
`n_iters`: the run completes with exactly `n_iters` results, exactly
`n_iters` harvests (the other `N - 1` outstanding futures are never
awaited), and exactly `N + (n_iters - 1)` generator calls (no refill after
the final harvest). -/
theorem claim_C2 (env : ServerEnv σ Sample Bucket) (sched : Nat → Nat)
    (_hN : 1 ≤ env.N) (hI : 1 ≤ env.n_iters)
    (hw : ∀ i s, ∃ smp rho, env.workerSim i s = .retVal smp rho)
    (hu : ∀ b r s0, ∃ s1, env.update b r s0 = some s1) :
    (runServerState env sched).map
        (fun st => (st.results.length, st.harvests, st.genCalls)) =
      .ok (env.n_iters, env.n_iters, env.N + (env.n_iters - 1)) := by
  have hres0 : (warmupState env).results = [] := by
    rw [warmupState, warmup_results]; rfl
  have hharv0 : (warmupState env).harvests = 0 := by
    rw [warmupState, warmup_harvests]; rfl
  have hgen0 : (warmupState env).genCalls = env.N := by
    rw [warmupState, warmup_genCalls]; simp [initState]
  obtain ⟨st', hrun, hlen, hharv, hgen⟩ :=
    runLoop_complete env sched hw hu (env.n_iters + 1) (warmupState env)
      (by rw [hres0]; simpa using hI)
      (by rw [hres0]; simp only [List.length_nil]; omega)
  have hB : st'.harvests = env.n_iters := by
    rw [hharv, hharv0, hres0]; simp only [List.length_nil]; omega
  have hC : st'.genCalls = env.N + (env.n_iters - 1) := by
    rw [hgen, hgen0, hres0]; simp only [List.length_nil]; omega
  rw [runServerState, hrun]
  simp only [Except.map]
  rw [hlen, hB, hC]

/-- Claim C2 witness: with target 3 and 5 workers the loop stops after
harvesting exactly 3 results, with 5 + 2 generator calls. -/
theorem claim_C2_witness :
    1 ≤ envSrv2.N ∧ 1 ≤ envSrv2.n_iters ∧
    (runServerState envSrv2 (fun t => t)).map
        (fun st => (st.results.length, st.harvests, st.genCalls)) =
      .ok (3, 3, 7) :=
  ⟨by decide, by decide,
   claim_C2 envSrv2 (fun t => t) (by decide) (by decide)
     (fun i s => ⟨10 + i, Int.ofNat i, rfl⟩) (fun b r s0 => ⟨s0, rfl⟩)⟩

/-- Claim C3: if the rejection predicate triggers on every attempt,
`_generate_next_sample` returns the null `(None, None)` result after exactly
2000 attempts — each attempt consuming exactly one sampler draw, the final
sampler state being the 2000-fold draw — and does not raise (the function is
total: both expected exceptions are caught on every attempt). -/
theorem claim_C3 (env : GenEnv σ Sample Bucket) (fb : Option Int) (s : σ)
    (h : ∀ smp, env.materialize smp = .rejection) :
    generateNextSample env fb s = ⟨none, none, iterDraw env 2000 s, 2000⟩ :=
  generateNextSample_rejectAll env h fb s

/-- Claim C3 witness: a concrete always-rejecting generator performs exactly
2000 draws (advancing the sampler state from 0 to 2000) and returns the null
pair. -/
theorem claim_C3_witness :
    (∀ smp : Nat, genEnvRej3.materialize smp = .rejection) ∧
    generateNextSample genEnvRej3 none 0 =
      ⟨none, none, iterDraw genEnvRej3 2000 0, 2000⟩ :=
  ⟨fun _ => rfl, claim_C3 genEnvRej3 none 0 (fun _ => rfl)⟩

/-- Claim C4, corrected.  The source has no exception handler around
`externalSampler.update(buckets, rho)` (scenic_server.py lines 196-199), so
a raising update is NOT caught and discarded at the sink boundary: it
propagates out of `run_server` and aborts the Scheduling Loop.  (The
result had already been appended to the in-memory `results` list before the
update call — `harvestStep` precedes `applyUpdate` in `runLoop` — but the
raise prevents `run_server` from returning the log.) -/
theorem claim_C4 (env : ServerEnv σ Sample Bucket) (sched : Nat → Nat)
    (smp : Sample) (rho : Int) (b : Bucket)
    (hws : env.workerSim (sched 0 % env.N)
      ((warmupState env).pending.getD (sched 0 % env.N) none) =
      .retVal smp rho)
    (hb : (warmupState env).bucketValues.getD (sched 0 % env.N) none = some b)
    (hu : env.update b rho (warmupState env).samplerState = none) :
    runServerState env sched = .error .updateError := by
  have h0 : (warmupState env).harvests = 0 := by
    rw [warmupState, warmup_harvests]; rfl
  rw [runServerState]
  simp only [runLoop]
  rw [h0, hws]
  simp only []
  rw [applyUpdate_of_raise env (sched 0 % env.N) rho
    (harvestStep smp rho (warmupState env)) b hb hu]

/-- Claim C4 witness: a concrete run whose first harvested trial carries
bucket 9 and whose updater raises ends in `updateError`. -/
theorem claim_C4_witness :
    envSrv4.workerSim (0 % envSrv4.N)
        ((warmupState envSrv4).pending.getD (0 % envSrv4.N) none) =
      .retVal 7 3 ∧
    (warmupState envSrv4).bucketValues.getD (0 % envSrv4.N) none = some 9 ∧
    runServerState envSrv4 (fun _ => 0) = .error .updateError :=
  ⟨rfl, rfl, claim_C4 envSrv4 (fun _ => 0) 7 3 9 rfl rfl rfl⟩

/-- Claim C4 counterexample: a failing feedback update propagates out of
`ParallelScenicServer.run_server` as an error — it is not caught and
discarded, and the coordinator's loop does not survive it. -/
theorem claim_C4_counterexample :
    ParallelScenicServer.run_server envSrv4 (fun _ => 0) =
      .error .updateError :=
  rfl

/-- Claim C5, corrected.  What holds: a creation failure during sample
generation terminates `_generate_next_sample` immediately — no retry, one
single sampler draw — and returns the null candidate `(None, None)`.  What
the claim additionally asserted is false: that value is NOT distinguishable
from the result of exhausting the 2000-attempt retry ceiling, which is the
identical `(None, None)` pair (line 169 and line 174 of scenic_server.py
return the same value). -/
theorem claim_C5 (env : GenEnv σ Sample Bucket) (fb : Option Int) (s : σ)
    (h : env.materialize (env.getSample s).1 = .creationError) :
    generateNextSample env fb s = ⟨none, none, (env.getSample s).2, 1⟩ ∧
    ∀ (env' : GenEnv σ Sample Bucket) (fb' : Option Int) (s' : σ),
      (∀ smp, env'.materialize smp = .rejection) →
      (generateNextSample env fb s).retPair =
        (generateNextSample env' fb' s').retPair := by
  have h1 := generateNextSample_creationFirst env fb s h
  refine ⟨h1, ?_⟩
  intro env' fb' s' h'
  rw [h1, generateNextSample_rejectAll env' h' fb' s']
  simp only [GenResult.retPair]

/-- Claim C5 witness: a concrete creation failure stops generation after one
draw with the null candidate, whose returned pair coincides with the
returned pair of an exhausted always-rejecting run. -/
theorem claim_C5_witness :
    genEnvCre5.materialize (genEnvCre5.getSample 0).1 = .creationError ∧
    generateNextSample genEnvCre5 none 0 = ⟨none, none, 1, 1⟩ ∧
    (generateNextSample genEnvCre5 none 0).retPair =
      (generateNextSample genEnvRej5 none 0).retPair := by
  refine ⟨rfl, ?_, ?_⟩
  · exact (claim_C5 genEnvCre5 none 0 rfl).1
  · exact (claim_C5 genEnvCre5 none 0 rfl).2 genEnvRej5 none 0 (fun _ => rfl)

/-- Claim C5 counterexample: the value `_generate_next_sample` returns on a
creation failure and the value it returns on exhausting the retry ceiling
are both `(None, None)` — not distinguishable. -/
theorem claim_C5_counterexample :
    (generateNextSample genEnvCre5 none 0).retPair = (none, none) ∧
    (generateNextSample genEnvRej5 none 0).retPair = (none, none) ∧
    (generateNextSample genEnvCre5 none 0).retPair =
      (generateNextSample genEnvRej5 none 0).retPair := by
  have hrej : generateNextSample genEnvRej5 none 0 =
      ⟨none, none, iterDraw genEnvRej5 2000 0, 2000⟩ :=
    generateNextSample_rejectAll genEnvRej5 (fun _ => rfl) none 0
  have hcre : generateNextSample genEnvCre5 none 0 =
      ⟨none, none, 1, 1⟩ :=
    generateNextSample_creationFirst genEnvCre5 none 0 rfl
  rw [hrej, hcre]
  refine ⟨?_, ?_, ?_⟩ <;> simp only [GenResult.retPair]

/-- Claim C6, corrected.  During WARMUP the loop does synchronously call the
Sample Generator exactly once per slot (`genCalls = N`) and dispatches to
every slot (`pending` has length `N`) — but it never skips a slot: the
generated value is dispatched unconditionally (`pending = samples`), so a
null candidate IS dispatched to the worker when generation failed. -/
theorem claim_C6 (env : ServerEnv σ Sample Bucket) :
    (warmupState env).genCalls = env.N ∧
    (warmupState env).pending.length = env.N ∧
    (warmupState env).pending = (warmupState env).samples := by
  refine ⟨?_, ?_, ?_⟩
  · rw [warmupState, warmup_genCalls]; simp [initState]
  · rw [warmupState, warmup_pending_length]; simp [initState]
  · exact warmup_pending_eq_samples env env.N (initState env) rfl

/-- Claim C6 witness: the warmup bookkeeping facts evaluated on a concrete
two-slot coordinator. -/
theorem claim_C6_witness :
    (warmupState envSrv6).genCalls = 2 ∧
    (warmupState envSrv6).pending.length = 2 ∧
    (warmupState envSrv6).pending = (warmupState envSrv6).samples :=
  claim_C6 envSrv6

/-- Claim C6 counterexample: with a generator that always hits a creation
failure, warmup dispatches the null candidate to both slots — `futures`
receives a `simulate.remote(None)` call per slot instead of the slot being
skipped. -/
theorem claim_C6_counterexample :
    (warmupState envSrv6).samples = [none, none] ∧
    (warmupState envSrv6).pending = [none, none] :=
  ⟨rfl, rfl⟩

/-- Claim C7, corrected.  `_generate_next_sample` does read the global
`self.lastValue` into its local `feedback` variable (line 147), but that
local is dead: it is never passed to the sampler (`ext.getSample()` takes no
argument) and never returned, so the produced candidate, buckets, sampler
state and draw count are identical across runs that differ only in
`lastValue`.  Candidate bias flows only through the sampler state mutated by
`update`, never through `lastValue`. -/
theorem claim_C7 (env : GenEnv σ Sample Bucket) (fb₁ fb₂ : Option Int)
    (s : σ) :
    generateNextSample env fb₁ s = generateNextSample env fb₂ s :=
  genAux_feedback_irrelevant env 2000 fb₁ fb₂ s

/-- Claim C7 witness: two concrete generation runs differing only in
`lastValue` coincide. -/
theorem claim_C7_witness :
    generateNextSample genEnvMix7 (some 5) 0 =
      generateNextSample genEnvMix7 (some 7) 0 :=
  claim_C7 genEnvMix7 (some 5) (some 7) 0

/-- Claim C7 counterexample: two runs that differ only in `lastValue`
(`some 5` vs `some 7`) produce the identical candidate (`some 2`, reached
after two rejections) — the candidate does not depend on `lastValue`. -/
theorem claim_C7_counterexample :
    some (5 : Int) ≠ some (7 : Int) ∧
    generateNextSample genEnvMix7 (some 5) 0 =
      generateNextSample genEnvMix7 (some 7) 0 ∧
    (generateNextSample genEnvMix7 (some 5) 0).sample = some 2 :=
  ⟨by decide, rfl, rfl⟩

/-- Claim C8: the Feedback Sink's `update` is reached only under the
`if buckets is not None` guard, so with a sampler exposing no bucket
structure (`current_sample` never yields buckets) a full completed run of
the coordinator performs zero update calls. -/
theorem claim_C8 (env : ServerEnv σ Sample Bucket) (sched : Nat → Nat)
    (hb : ∀ s, env.gen.currentBuckets s = none) :
    ∀ st', runServerState env sched = .ok st' → st'.updateLog = [] := by
  intro st' h
  refine runLoop_no_update env sched hb (env.n_iters + 1) (warmupState env)
    ?_ ?_ st' h
  · exact warmup_bucketValues_none env hb env.N (initState env)
      (fun x hx => absurd hx (by simp [initState]))
  · rw [warmupState, warmup_updateLog]; rfl

/-- Claim C8 witness: a concrete full run with a bucketless sampler
completes with an empty update-call log. -/
theorem claim_C8_witness :
    runServerState envSrv8 (fun _ => 0) = .ok stW8 ∧ stW8.updateLog = [] :=
  ⟨rfl, claim_C8 envSrv8 (fun _ => 0) (fun _ => rfl) stW8 rfl⟩

/-- Claim C9: in the serial `ScenicServer.run_server`, a successful
simulation (the simulator returned a non-null result) yields the outcome
`monitor.evaluate(result.trajectory)` when a monitor is configured and `0`
when none is; a null simulation result makes `lastValue` the sampler's
`rejectionFeedback` instead. -/
theorem claim_C9 (env : SerialEnv Sample Scene Traj) (lv : Option Int)
    (scene : Scene) (hs : env.lastScene lv = some scene) :
    (∀ traj, env.simulate scene = .ret (some traj) →
      (env.monitor = none →
        ScenicServer.run_server env lv =
          .ok ((env.nextSample lv, some 0), some 0)) ∧
      (∀ m, env.monitor = some m →
        ScenicServer.run_server env lv =
          .ok ((env.nextSample lv, some (m traj)), some (m traj)))) ∧
    (ScenicServer.runSimulate env scene = none →
      ScenicServer.run_server env lv =
        .ok ((env.nextSample lv, env.rejectionFeedback),
          env.rejectionFeedback)) := by
  constructor
  · intro traj htraj
    constructor
    · intro hm
      simp only [ScenicServer.run_server, ScenicServer.runSimulate, hs,
        htraj, hm]
    · intro m hm
      simp only [ScenicServer.run_server, ScenicServer.runSimulate, hs,
        htraj, hm]
  · intro hnone
    simp only [ScenicServer.run_server, hs, hnone]

/-- Claim C9 witness: concrete serial runs — monitored success scores 20,
unmonitored success scores 0, and a creation failure sets `lastValue` to the
rejection feedback. -/
theorem claim_C9_witness :
    ScenicServer.run_server envSer9a (some 0) =
      .ok ((42, some 20), some 20) ∧
    ScenicServer.run_server envSer9b (some 0) =
      .ok ((42, some 0), some 0) ∧
    ScenicServer.run_server envSer9c (some 0) =
      .ok ((42, some (-5)), some (-5)) :=
  ⟨((claim_C9 envSer9a (some 0) 1 rfl).1 10 rfl).2 (fun t => 2 * t) rfl,
   ((claim_C9 envSer9b (some 0) 1 rfl).1 10 rfl).1 rfl,
   (claim_C9 envSer9c (some 0) 1 rfl).2 rfl⟩

/-- Claim C10: `SampleSimulator.__init__` never assigns `rejectionFeedback`
(nor does any other method), so whenever the simulator returns `None`
without raising, the rejected-result branch of `SampleSimulator.simulate`
raises `AttributeError` instead of returning a tuple — the branch can only
complete without error if it is never taken. -/
theorem claim_C10 :
    (∀ (Traj : Type) (wn : Nat) (monitor : Option (Traj → Int))
        (ms : Option Nat) (v mi : Nat),
      (SampleSimulator.init wn monitor ms v mi).rejectionFeedback = none ∧
      (SampleSimulator.init wn monitor ms v mi).lastValue = none) ∧
    (∀ (Sample Scene Traj : Type) (st : SampleSimState Traj)
        (env : WorkerEnv Sample Scene Traj) (sample : Option Sample),
      st.rejectionFeedback = none →
      env.simulate (env.resolve sample).2 = .ret none →
      SampleSimulator.simulate st env sample = .error .attributeError) := by
  constructor
  · intro Traj wn monitor ms v mi
    exact ⟨rfl, rfl⟩
  · intro Sample Scene Traj st env sample h1 h2
    simp only [SampleSimulator.simulate, h2, h1]

/-- Claim C10 witness: a freshly initialized worker has no
`rejectionFeedback`, and its `simulate` raises `AttributeError` on a
concrete `None`-returning simulation. -/
theorem claim_C10_witness :
    stSim10.rejectionFeedback = none ∧
    SampleSimulator.simulate stSim10 wEnv10 (some 4) =
      .error .attributeError :=
  ⟨(claim_C10.1 Nat 3 none none 0 1).1,
   claim_C10.2 Nat Nat Nat stSim10 wEnv10 (some 4) rfl rfl⟩

end VerifAI
